import Mathlib

/-!
# VideoEGL (ruby/video/egl.cpp): a shallow embedding

The driver `VideoEGL` of `src/ruby/video/egl.cpp` is embedded as pure functions on a
record of its member variables.  Calls into Xlib, EGL and the OpenGL renderer are
external; every value such a call hands back to the driver is an input of the embedded
function (the `...Env` records), so that a statement quantified over the environment
covers every behaviour of the platform.
-/

namespace VideoEGL

/-! ## Machine integers -/

/-- C `int` / `EGLint` / `int32_t`: a mathematical integer, kept in range by `wrapI32`. -/
abbrev EGLint := Int

/-- Reduction of an integer, in two-complement fashion, to the range of `int32_t`. -/
def wrapI32 (x : Int) : Int := (x + 2147483648) % 4294967296 - 2147483648

/-- Conversion of a C `int` to `unsigned int` (reduction modulo 2^32). -/
def toU32 (x : Int) : Nat := (x % 4294967296).toNat

/-- Addition of two `unsigned int`. -/
def addU32 (a b : Nat) : Nat := (a + b) % 4294967296

/-- Subtraction of two `unsigned int`. -/
def subU32 (a b : Nat) : Nat := (a % 4294967296 + (4294967296 - b % 4294967296)) % 4294967296

/-! ## Constants of the EGL / OpenGL headers -/

def EGL_ALPHA_SIZE : EGLint := 0x3021
def EGL_BLUE_SIZE : EGLint := 0x3022
def EGL_GREEN_SIZE : EGLint := 0x3023
def EGL_RED_SIZE : EGLint := 0x3024
def EGL_NATIVE_VISUAL_ID : EGLint := 0x302E
def EGL_SURFACE_TYPE : EGLint := 0x3033
def EGL_NONE : EGLint := 0x3038
def EGL_RENDERABLE_TYPE : EGLint := 0x3040
def EGL_WINDOW_BIT : EGLint := 0x0004
def EGL_OPENGL_BIT : EGLint := 0x0008
def EGL_SINGLE_BUFFER : EGLint := 0x3085
def EGL_RENDER_BUFFER : EGLint := 0x3086

def GL_RGBA8 : Nat := 0x8058
def GL_RGB10_A2 : Nat := 0x8059

/-- Handles (`EGLDisplay`, `EGLContext`, `EGLSurface`, `EGLConfig`, `Window`, `Colormap`,
`Display*`, `uintptr`) are numbers; the null handle is `0`. -/
abbrev Handle := Nat

def EGL_NO_DISPLAY : Handle := 0
def EGL_NO_CONTEXT : Handle := 0
def EGL_NO_SURFACE : Handle := 0

/-! ## `hasFormats` -/

/-- Method `VideoEGL::hasFormats`, as a function of `_depth`. -/
def hasFormats (_depth : Nat) : List String :=
  if _depth = 30 then ["ARGB30", "ARGB24"]
  else if _depth = 24 then ["ARGB24"]
  else ["ARGB24"]

/-! ## The configuration scoring loop of `initialize` -/

/-- The array `configAttribs` built in `initialize` from `VideoDriver::format`. -/
def configAttribs (format : String) : List EGLint :=
  [ EGL_SURFACE_TYPE, EGL_WINDOW_BIT,
    EGL_RENDERABLE_TYPE, EGL_OPENGL_BIT,
    EGL_RED_SIZE, if format = "ARGB30" then 10 else 8,
    EGL_GREEN_SIZE, if format = "ARGB30" then 10 else 8,
    EGL_BLUE_SIZE, if format = "ARGB30" then 10 else 8,
    EGL_ALPHA_SIZE, if format = "ARGB30" then 2 else 8,
    EGL_NONE ]

/-- The test `configAttribs[j] == EGL_RED_SIZE || ... || configAttribs[j] == EGL_ALPHA_SIZE`. -/
def isColorSize (a : EGLint) : Bool :=
  a == EGL_RED_SIZE || a == EGL_GREEN_SIZE || a == EGL_BLUE_SIZE || a == EGL_ALPHA_SIZE

/-- The value left in `value` by `auto value = EGLint{}; eglGetConfigAttrib(.., &value)`:
`answer = none` is a failing call, which leaves the zero in place. -/
def queriedValue (answer : Option EGLint) : Int := answer.getD 0

/-- The inner loop `for(j = 0; j < sizeof(configAttribs)/sizeof(EGLint) - 1; j += 2)`,
run over the not yet visited part of `configAttribs`; `get` is `eglGetConfigAttrib` for
the candidate, `bitdiff` the running `int32_t` sum. -/
def bitdiffLoop (get : EGLint → Option EGLint) : List EGLint → Int → Int
  | a :: b :: rest, bitdiff =>
    if a = EGL_NONE then bitdiff
    else if isColorSize a then
      bitdiffLoop get rest (wrapI32 (bitdiff + wrapI32 (queriedValue (get a) - b)))
    else bitdiffLoop get rest bitdiff
  | _, bitdiff => bitdiff

/-- The `bitdiff` of one candidate `c`. -/
def bitdiffOf (getConfigAttrib : Handle → EGLint → Option EGLint) (attribs : List EGLint)
    (c : Handle) : Int :=
  bitdiffLoop (getConfigAttrib c) attribs 0

/-- The outer loop `for(auto c : configs)` on the pair `(config, chosenBitdiff)`. -/
def chooseLoop (getConfigAttrib : Handle → EGLint → Option EGLint) (attribs : List EGLint) :
    List Handle → Handle × Int → Handle × Int
  | [], st => st
  | c :: cs, st =>
    let bitdiff := bitdiffOf getConfigAttrib attribs c
    let st1 : Handle × Int := if bitdiff < st.2 ∨ st.2 = -1 then (c, bitdiff) else st
    if bitdiff = 0 then st1 else chooseLoop getConfigAttrib attribs cs st1

/-- The block `EGLConfig config = nullptr; { int32_t chosenBitdiff = -1; for ... }`:
the value of `config` after the loop. -/
def chooseConfig (getConfigAttrib : Handle → EGLint → Option EGLint) (format : String)
    (configs : List Handle) : Handle :=
  (chooseLoop getConfigAttrib (configAttribs format) configs (0, -1)).1

/-- The requested size of a colour channel (`configAttribs[j + 1]`). -/
def requested (format : String) (attr : EGLint) : Int :=
  if attr = EGL_ALPHA_SIZE then (if format = "ARGB30" then 2 else 8)
  else (if format = "ARGB30" then 10 else 8)

/-- The four colour channels, in the order of `configAttribs`. -/
def channels : List EGLint := [EGL_RED_SIZE, EGL_GREEN_SIZE, EGL_BLUE_SIZE, EGL_ALPHA_SIZE]

/-- Total surplus of a candidate: the sum over the four channels of reported size minus
requested size, as a mathematical integer. -/
def surplus (getConfigAttrib : Handle → EGLint → Option EGLint) (format : String)
    (c : Handle) : Int :=
  (channels.map fun a => queriedValue (getConfigAttrib c a) - requested format a).sum

/-- Every channel of `c` is reported, with a size that is at least the requested one. -/
def ReportsAtLeast (getConfigAttrib : Handle → EGLint → Option EGLint) (format : String)
    (c : Handle) : Prop :=
  ∀ a ∈ channels, ∃ v, getConfigAttrib c a = some v ∧ requested format a ≤ v

/-- A candidate matches the request exactly: all four reported sizes equal the requested. -/
def ExactMatch (getConfigAttrib : Handle → EGLint → Option EGLint) (format : String)
    (c : Handle) : Prop :=
  ∀ a ∈ channels, getConfigAttrib c a = some (requested format a)

/-! ## The driver object -/

/-- The settings of the base class `VideoDriver` that `VideoEGL` reads (`self.fullScreen`,
`self.monitor`, `self.context`, `self.blocking`, `self.flush`, `self.shader`,
`VideoDriver::format`, `VideoDriver::exclusive`).  They are stored by the owning `Video`
object before it calls the setter of the driver. -/
structure VideoDriver where
  exclusive : Bool
  fullScreen : Bool
  monitor : String
  context : Handle
  blocking : Bool
  flush : Bool
  format : String
  shader : String
  deriving DecidableEq

/-- The members of the base class `OpenGL` (the renderer) that `VideoEGL` writes. -/
structure OpenGL where
  inputFormat : Nat
  absoluteWidth : Nat
  absoluteHeight : Nat
  outputX : Nat
  outputY : Nat
  outputWidth : Nat
  outputHeight : Nat
  deriving DecidableEq

/-- The object `struct VideoEGL : VideoDriver, OpenGL` with its private members. -/
structure State extends VideoDriver, OpenGL where
  _ready : Bool
  _xDisplay : Handle
  _eglDisplay : Handle
  _eglVersionMajor : EGLint
  _eglVersionMinor : EGLint
  _eglContext : Handle
  _eglSurface : Handle
  _monitorX : Nat
  _monitorY : Nat
  _monitorWidth : Nat
  _monitorHeight : Nat
  _depth : Nat
  _xParent : Handle
  _xWindow : Handle
  _xColormap : Handle
  _doubleBuffer : Bool
  _isDirect : Bool
  deriving DecidableEq

/-- Method `VideoEGL::ready`. -/
def ready (s : State) : Bool := s._ready

/-- Method `VideoEGL::terminate`.  `OpenGL::terminate`, `eglMakeCurrent`, `eglDestroyContext`,
`eglDestroySurface`, `XUnmapWindow` and `XFreeColormap` return nothing the driver reads. -/
def terminate (s : State) : State :=
  have s : State := { s with _ready := false }
  if s._eglDisplay ≠ 0 then
    have s : State := if s._eglContext ≠ 0 then { s with _eglContext := EGL_NO_CONTEXT } else s
    have s : State := if s._eglSurface ≠ 0 then { s with _eglSurface := EGL_NO_SURFACE } else s
    have s : State := if s._xWindow ≠ 0 then { s with _xWindow := 0 } else s
    have s : State := if s._xColormap ≠ 0 then { s with _xColormap := 0 } else s
    s
  else s

/-- Method `VideoEGL::destruct` (`XCloseDisplay` leaves `_xDisplay` as it is). -/
def destruct (s : State) : State := terminate s

/-- What Xlib and EGL hand back during `construct`. -/
structure ConstructEnv where
  /-- Result of `XOpenDisplay(nullptr)`. -/
  openDisplay : Handle
  /-- Field `attribs.depth` for the root window. -/
  rootDepth : Int
  /-- Result of the lambda `getEglDisplay`. -/
  getEglDisplay : Handle
  /-- Value returned by `eglInitialize`. -/
  eglInitResult : Bool
  /-- What `eglInitialize` writes through `&_eglVersionMajor` and `&_eglVersionMinor`:
  `none` when it writes nothing. -/
  eglInitVersion : Option (EGLint × EGLint)

/-- The one assumption made of the platform: for `EGL_NO_DISPLAY`, `eglInitialize` reports
no version that passes the gate "EGL 1.5+" of `initialize`.  (By the EGL contract it fails
there with `EGL_BAD_DISPLAY` and writes nothing.) -/
def ConstructEnv.Conforming (env : ConstructEnv) : Prop :=
  env.getEglDisplay = EGL_NO_DISPLAY →
    ∀ major minor, env.eglInitVersion = some (major, minor) →
      major < 1 ∨ (major = 1 ∧ minor < 5)

instance (env : ConstructEnv) : Decidable env.Conforming := by
  unfold ConstructEnv.Conforming
  exact decidable_of_iff
    (env.getEglDisplay = EGL_NO_DISPLAY →
      (env.eglInitVersion.all fun v => decide (v.1 < 1 ∨ (v.1 = 1 ∧ v.2 < 5))) = true)
    (by
      constructor
      · intro h hd major minor hv
        have := h hd
        rw [hv] at this
        simpa using this
      · intro h hd
        cases hv : env.eglInitVersion with
        | none => rfl
        | some v =>
          have := h hd v.1 v.2 hv
          simpa using this)

/-- Method `VideoEGL::construct`, on the members as initialised by the class (`base` and `gl` are
the freshly constructed base classes). -/
def construct (base : VideoDriver) (gl : OpenGL) (env : ConstructEnv) : State :=
  have s : State :=
    { toVideoDriver := base, toOpenGL := gl,
      _ready := false, _xDisplay := 0, _eglDisplay := EGL_NO_DISPLAY,
      _eglVersionMajor := 0, _eglVersionMinor := 0,
      _eglContext := EGL_NO_CONTEXT, _eglSurface := EGL_NO_SURFACE,
      _monitorX := 0, _monitorY := 0, _monitorWidth := 0, _monitorHeight := 0,
      _depth := 24, _xParent := 0, _xWindow := 0, _xColormap := 0,
      _doubleBuffer := false, _isDirect := false }
  have s : State := { s with _xDisplay := env.openDisplay }
  have s : State := { s with _depth := toU32 env.rootDepth }
  have s : State := { s with _eglDisplay := env.getEglDisplay }
  have s : State :=
    match env.eglInitVersion with
    | some (major, minor) => { s with _eglVersionMajor := major, _eglVersionMinor := minor }
    | none => s
  if env.eglInitResult then s else destruct s

/-- Result of `Video::monitor(name)`. -/
structure Monitor where
  x : Int
  y : Int
  width : Int
  height : Int

/-- The fields of `XVisualInfo` that `initialize` reads. -/
structure XVisualInfo where
  visual : Handle
  screen : Int
  depth : Int

/-- What Xlib, EGL and the renderer hand back during one run of `initialize`. -/
structure InitEnv where
  /-- First `eglChooseConfig`: `none` for `EGL_FALSE`, else the `configSize` written. -/
  chooseConfigSize : Option Nat
  /-- Second `eglChooseConfig`: `none` for `EGL_FALSE`, else the configurations written. -/
  chooseConfigs : Option (List Handle)
  /-- Call `eglGetConfigAttrib(_eglDisplay, c, attribute, &value)`: `none` for `EGL_FALSE`. -/
  getConfigAttrib : Handle → EGLint → Option EGLint
  /-- Call `Video::monitor`. -/
  monitor : String → Monitor
  /-- Call `XGetVisualInfo` for a visual id: the array returned (`visualsCount` is its length). -/
  getVisualInfo : EGLint → List XVisualInfo
  /-- Macro `RootWindow(_xDisplay, screen)`. -/
  rootWindow : Int → Handle
  /-- Result of `XCreateColormap`. -/
  createColormap : Handle
  /-- Result of `XCreateWindow`. -/
  createWindow : Handle
  /-- Result of `eglCreateWindowSurface`. -/
  createWindowSurface : Handle
  /-- Result of `eglBindAPI`. -/
  bindAPI : Bool
  /-- Result of `eglCreateContext`. -/
  createContext : Handle
  /-- Result of `eglMakeCurrent`. -/
  makeCurrent : Bool
  /-- Result of `eglSwapInterval`. -/
  swapInterval : Bool
  /-- Call `eglQueryContext(.., EGL_RENDER_BUFFER, &attrib)`: `none` for `EGL_FALSE`. -/
  queryContext : Option EGLint
  /-- Result of `OpenGL::initialize(self.shader)`. -/
  openGLInit : Bool

/-- The vector `configs` after `configs.resize(configSize)` and the second
`eglChooseConfig`, which fills at most `configs.size()` leading entries. -/
def configsVector (configSize : Nat) (written : List Handle) : List Handle :=
  (written ++ List.replicate (configSize - written.length) 0).take configSize

/-- Method `VideoEGL::initialize` (the bare name is reserved in Lean): the value returned and the
object afterwards. -/
def initializeDriver (s : State) (env : InitEnv) : Bool × State :=
  have s : State := terminate s
  if !s.fullScreen && s.context == 0 then (false, s) else
  if s._eglVersionMajor < 1 ∨ (s._eglVersionMajor = 1 ∧ s._eglVersionMinor < 5) then (false, s) else
  match env.chooseConfigSize with
  | none => (false, s)
  | some configSize =>
  match env.chooseConfigs with
  | none => (false, s)
  | some written =>
  let configs := configsVector configSize written
  let config := chooseConfig env.getConfigAttrib s.format configs
  let monitor := env.monitor s.monitor
  have s : State :=
    { s with
      _monitorX := toU32 monitor.x
      _monitorY := toU32 monitor.y
      _monitorWidth := toU32 monitor.width
      _monitorHeight := toU32 monitor.height }
  match env.getConfigAttrib config EGL_NATIVE_VISUAL_ID with
  | none => (false, terminate s)
  | some visualid =>
  match env.getVisualInfo visualid with
  | [] => (false, terminate s)
  | visual :: _ =>
  have s : State :=
    { s with _xParent := if s.fullScreen then env.rootWindow visual.screen else s.context }
  have s : State := { s with _xColormap := env.createColormap }
  have s : State := { s with _xWindow := env.createWindow }
  have s : State := { s with _eglSurface := env.createWindowSurface }
  if s._eglSurface = 0 then (false, terminate s) else
  if !env.bindAPI then (false, terminate s) else
  have s : State := { s with _eglContext := env.createContext }
  if s._eglContext = 0 then (false, terminate s) else
  if !env.makeCurrent then (false, terminate s) else
  if !env.swapInterval then (false, terminate s) else
  let attrib := queriedValue env.queryContext
  have s : State := { s with _doubleBuffer := attrib != EGL_SINGLE_BUFFER }
  have s : State := { s with _ready := env.openGLInit }
  (s._ready, s)

/-- Method `VideoEGL::create`. -/
def create (s : State) (env : InitEnv) : Bool × State :=
  initializeDriver { s with exclusive := true, format := "ARGB24" } env

/-- Method `VideoEGL::setFullScreen`. -/
def setFullScreen (s : State) (_fullScreen : Bool) (env : InitEnv) : Bool × State :=
  initializeDriver s env

/-- Method `VideoEGL::setMonitor`. -/
def setMonitor (s : State) (_monitor : String) (env : InitEnv) : Bool × State :=
  initializeDriver s env

/-- Method `VideoEGL::setContext`. -/
def setContext (s : State) (_context : Handle) (env : InitEnv) : Bool × State :=
  initializeDriver s env

/-- Method `VideoEGL::setBlocking` (the result of `eglSwapInterval` is not read). -/
def setBlocking (s : State) (_blocking : Bool) : Bool × State := (true, s)

/-- Method `VideoEGL::setFlush`. -/
def setFlush (s : State) (_flush : Bool) : Bool × State := (true, s)

/-- Method `VideoEGL::setFormat`. -/
def setFormat (s : State) (format : String) (env : InitEnv) : Bool × State :=
  if format = "ARGB24" then initializeDriver { s with inputFormat := GL_RGBA8 } env
  else if format = "ARGB30" then initializeDriver { s with inputFormat := GL_RGB10_A2 } env
  else (false, s)

/-- Method `VideoEGL::setShader`.  The body of `OpenGL::setShader` is not part of the driver:
what it makes of the renderer members is the parameter `openGLSetShader`. -/
def setShader (s : State) (shader : String) (openGLSetShader : String → OpenGL → OpenGL) :
    Bool × State :=
  have s : State := { s with toOpenGL := openGLSetShader shader s.toOpenGL }
  (true, s)

/-! ## The X server and `output` -/

/-- The fields of `XWindowAttributes` that the driver reads (C `int`). -/
structure XWindowAttributes where
  width : Int
  height : Int
  deriving DecidableEq

/-- The geometry the X server holds for each window. -/
structure XServer where
  width : Handle → Nat
  height : Handle → Nat

/-- Call `XGetWindowAttributes`: the size of window `w`, as C `int`. -/
def XGetWindowAttributes (X : XServer) (w : Handle) : XWindowAttributes :=
  { width := wrapI32 (X.width w), height := wrapI32 (X.height w) }

/-- Call `XResizeWindow(display, w, width, height)` with `unsigned int` arguments: the server
sets the size of `w`. -/
def XResizeWindow (X : XServer) (w : Handle) (width height : Nat) : XServer :=
  { width := fun v => if v = w then width else X.width v,
    height := fun v => if v = w then height else X.height v }

/-- The calls `output` issues to the platform and the renderer. -/
inductive Call where
  | xGetWindowAttributes (w : Handle)
  | xResizeWindow (w : Handle) (width height : Nat)
  | openGLOutput
  | eglSwapBuffers (display surface : Handle)
  | glFinish
  deriving DecidableEq

/-- Is the call an `eglSwapBuffers`? -/
def Call.isSwap : Call → Bool
  | .eglSwapBuffers _ _ => true
  | _ => false

/-- Method `VideoEGL::output`: the object afterwards, the X server afterwards, and the calls
issued in order. -/
def output (s : State) (X : XServer) (width height : Nat) : State × XServer × List Call :=
  let window := XGetWindowAttributes X s._xWindow
  let parent := XGetWindowAttributes X s._xParent
  let resize : Bool := window.width != parent.width || window.height != parent.height
  let X1 := if resize then XResizeWindow X s._xWindow (toU32 parent.width) (toU32 parent.height) else X
  let _height := if height ≠ 0 then height else s._monitorHeight
  let _monitorY :=
    subU32 (subU32 (toU32 parent.height) (addU32 s._monitorY _height))
      (subU32 s._monitorHeight _height)
  have s1 : State :=
    { s with
      absoluteWidth := width
      absoluteHeight := height
      outputX := if s.fullScreen then s._monitorX else 0
      outputY := if s.fullScreen then _monitorY else 0
      outputWidth := if s.fullScreen then s._monitorWidth else toU32 parent.width
      outputHeight := if s.fullScreen then s._monitorHeight else toU32 parent.height }
  (s1, X1,
    [Call.xGetWindowAttributes s._xWindow, Call.xGetWindowAttributes s._xParent]
      ++ (if resize then [Call.xResizeWindow s._xWindow (toU32 parent.width) (toU32 parent.height)]
          else [])
      ++ [Call.openGLOutput]
      ++ (if s._doubleBuffer then [Call.eglSwapBuffers s._eglDisplay s._eglSurface] else [])
      ++ (if s.flush then [Call.glFinish] else []))

/-- Number of `eglSwapBuffers` calls in a list of calls. -/
def swapCount (calls : List Call) : Nat := (calls.filter Call.isSwap).length

/-! ## Reachable objects -/

/-- The native handles are all released. -/
def HandlesReleased (s : State) : Prop :=
  s._xWindow = 0 ∧ s._eglContext = EGL_NO_CONTEXT ∧ s._eglSurface = EGL_NO_SURFACE ∧
    s._xColormap = 0

/-- The invariant behind the guard `if(_eglDisplay)` of `terminate`: an object without EGL
display has an EGL version below 1.5 (so that `initialize` stops at its version gate) and
holds no native handle. -/
def NoDisplayIdle (s : State) : Prop :=
  s._eglDisplay = EGL_NO_DISPLAY →
    (s._eglVersionMajor < 1 ∨ (s._eglVersionMajor = 1 ∧ s._eglVersionMinor < 5)) ∧
      HandlesReleased s

/-- The objects that arise from construction by calls of the public interface.  The owning
`Video` object may store any settings in the base class between calls (`store`), and the
renderer members may be written by `output`. -/
inductive Reachable : State → Prop where
  | construct (base : VideoDriver) (gl : OpenGL) (env : ConstructEnv) (h : env.Conforming) :
      Reachable (construct base gl env)
  | store (s : State) (base : VideoDriver) : Reachable s →
      Reachable { s with toVideoDriver := base }
  | create (s : State) (env : InitEnv) : Reachable s → Reachable (create s env).2
  | setFullScreen (s : State) (v : Bool) (env : InitEnv) : Reachable s →
      Reachable (setFullScreen s v env).2
  | setMonitor (s : State) (v : String) (env : InitEnv) : Reachable s →
      Reachable (setMonitor s v env).2
  | setContext (s : State) (v : Handle) (env : InitEnv) : Reachable s →
      Reachable (setContext s v env).2
  | setFormat (s : State) (v : String) (env : InitEnv) : Reachable s →
      Reachable (setFormat s v env).2
  | setBlocking (s : State) (v : Bool) : Reachable s → Reachable (setBlocking s v).2
  | setFlush (s : State) (v : Bool) : Reachable s → Reachable (setFlush s v).2
  | setShader (s : State) (v : String) (openGLSetShader : String → OpenGL → OpenGL) :
      Reachable s → Reachable (setShader s v openGLSetShader).2
  | output (s : State) (X : XServer) (width height : Nat) : Reachable s →
      Reachable (output s X width height).1
  | terminate (s : State) : Reachable s → Reachable (terminate s)

/-! ## Sample data -/

/-- A platform answer to `eglGetConfigAttrib` for a configuration with the given red,
green, blue and alpha sizes (every other attribute fails). -/
def rgbaConfig (r g b a : EGLint) : EGLint → Option EGLint := fun x =>
  if x = EGL_RED_SIZE then some r
  else if x = EGL_GREEN_SIZE then some g
  else if x = EGL_BLUE_SIZE then some b
  else if x = EGL_ALPHA_SIZE then some a
  else none

/-- Four sample configurations: 1 is 9/7/8/8, 2 is 8/8/8/8, 3 is 7/8/8/8, 4 is 9/8/8/8. -/
def sampleConfigs : Handle → EGLint → Option EGLint
  | 1 => rgbaConfig 9 7 8 8
  | 2 => rgbaConfig 8 8 8 8
  | 3 => rgbaConfig 7 8 8 8
  | 4 => rgbaConfig 9 8 8 8
  | _ => fun _ => none

/-- Two candidates that report at least 8/8/8/8: 4 is 9/8/8/8 and 6 is
2147483647/2147483647/8/8, whose differences do not fit `int32_t` when summed. -/
def sampleHugeConfigs : Handle → EGLint → Option EGLint
  | 4 => rgbaConfig 9 8 8 8
  | 6 => rgbaConfig 2147483647 2147483647 8 8
  | _ => fun _ => none

/-- A platform without EGL display whose `eglInitialize` nevertheless returns true and
reports EGL 1.5. -/
def sampleNoDisplayEnv : ConstructEnv :=
  { openDisplay := 1, rootDepth := 24, getEglDisplay := EGL_NO_DISPLAY, eglInitResult := true,
    eglInitVersion := some (1, 5) }

/-- Base-class settings of a full-screen driver without embed context. -/
def sampleBase : VideoDriver :=
  { exclusive := false, fullScreen := true, monitor := "Primary", context := 0,
    blocking := false, flush := false, format := "ARGB24", shader := "Blur" }

/-- Base-class settings of a windowed driver without embed context. -/
def sampleWindowedBase : VideoDriver :=
  { exclusive := false, fullScreen := false, monitor := "Primary", context := 0,
    blocking := false, flush := false, format := "ARGB24", shader := "Blur" }

/-- A freshly constructed renderer. -/
def sampleGL : OpenGL :=
  { inputFormat := GL_RGBA8, absoluteWidth := 0, absoluteHeight := 0, outputX := 0,
    outputY := 0, outputWidth := 0, outputHeight := 0 }

/-- A display of depth 24 with EGL 1.5. -/
def sampleConstructEnv : ConstructEnv :=
  { openDisplay := 1, rootDepth := 24, getEglDisplay := 1, eglInitResult := true,
    eglInitVersion := some (1, 5) }

/-- A platform on which every step of `initialize` succeeds: one configuration 8/8/8/8
(10/10/10/2 is reported by configuration 5), a monitor (0,0,1920,1080), a double-buffered
context, and a renderer that initialises. -/
def sampleInitEnv : InitEnv :=
  { chooseConfigSize := some 1
    chooseConfigs := some [2]
    getConfigAttrib := fun c a =>
      if a = EGL_NATIVE_VISUAL_ID then some 33
      else if c = 5 then rgbaConfig 10 10 10 2 a else rgbaConfig 8 8 8 8 a
    monitor := fun _ => { x := 0, y := 0, width := 1920, height := 1080 }
    getVisualInfo := fun _ => [{ visual := 7, screen := 0, depth := 24 }]
    rootWindow := fun _ => 100
    createColormap := 11
    createWindow := 12
    createWindowSurface := 13
    bindAPI := true
    createContext := 14
    makeCurrent := true
    swapInterval := true
    queryContext := some 0x3084
    openGLInit := true }

/-- The same platform, with a renderer whose `OpenGL::initialize` fails. -/
def sampleRendererFailsEnv : InitEnv := { sampleInitEnv with openGLInit := false }

/-- The same platform, offering the single configuration 5 (10/10/10/2). -/
def sampleDeepEnv : InitEnv := { sampleInitEnv with chooseConfigs := some [5] }

/-- The driver after construction on the sample display (full-screen settings). -/
def sampleConstructed : State := construct sampleBase sampleGL sampleConstructEnv

/-- The driver after construction on the sample display (windowed, no embed context). -/
def sampleWindowed : State := construct sampleWindowedBase sampleGL sampleConstructEnv

/-- The driver after a successful `create()`. -/
def sampleReady : State := (create sampleConstructed sampleInitEnv).2

/-- A ready windowed driver: embed context 200 stored, then `setContext`. -/
def sampleReadyWindowed : State :=
  (setContext { sampleWindowed with context := 200 } 200 sampleInitEnv).2

/-- An X server on which every window is 1920 by 1080. -/
def sampleX : XServer := { width := fun _ => 1920, height := fun _ => 1080 }

/-- An X server on which the embed parent 200 is 800 by 600 and every other window is
640 by 480. -/
def sampleResizedX : XServer :=
  { width := fun w => if w = 200 then 800 else 640
    height := fun w => if w = 200 then 600 else 480 }

instance (get : Handle → EGLint → Option EGLint) (format : String) (c : Handle) :
    Decidable (ExactMatch get format c) := by
  unfold ExactMatch; exact inferInstance

instance (get : Handle → EGLint → Option EGLint) (format : String) (c : Handle) :
    Decidable (ReportsAtLeast get format c) := by
  unfold ReportsAtLeast
  exact decidable_of_iff
    (∀ a ∈ channels, (get c a).any fun v => decide (requested format a ≤ v) = true)
    (by
      constructor
      · intro h a ha
        have := h a ha
        cases hg : get c a with
        | none => simp [hg] at this
        | some v => exact ⟨v, rfl, by simpa [hg] using this⟩
      · intro h a ha
        obtain ⟨v, hv, hle⟩ := h a ha
        simp [hv, hle])

instance (s : State) : Decidable (HandlesReleased s) := by
  unfold HandlesReleased; exact inferInstance

/-! # Theorems -/

/-! ## Advertised formats -/

/-- Claim C7: for every display depth `d`, `hasFormats()` lists "ARGB30" only if `d >= 30`;
for every `d < 30` the list is exactly ["ARGB24"]; and "ARGB24" is listed for every `d`. -/
theorem hasFormats_by_depth (d : Nat) :
    ("ARGB30" ∈ hasFormats d → 30 ≤ d) ∧ (d < 30 → hasFormats d = ["ARGB24"]) ∧
      "ARGB24" ∈ hasFormats d := by
  unfold hasFormats
  refine ⟨?_, ?_, ?_⟩
  · intro h
    by_cases h30 : d = 30
    · omega
    · simp [h30] at h
  · intro h
    have h30 : d ≠ 30 := by omega
    simp [h30]
  · split <;> simp

/-- Instances of C7 at depth 30 (where "ARGB30" is listed) and at depth 24. -/
theorem hasFormats_by_depth_witness :
    (("ARGB30" ∈ hasFormats 30 → 30 ≤ 30) ∧ (30 < 30 → hasFormats 30 = ["ARGB24"]) ∧
      "ARGB24" ∈ hasFormats 30) ∧ "ARGB30" ∈ hasFormats 30 ∧ 24 < 30 ∧
      hasFormats 24 = ["ARGB24"] :=
  ⟨hasFormats_by_depth 30, by decide, by decide, (hasFormats_by_depth 24).2.1 (by decide)⟩

/-! ## The scoring loop without its precondition -/

/-- Claim C10: there is a candidate list with a reported channel size below the requested
one on which the scoring loop selects a configuration that is not an exact match although
an exact match is in the list: the signed differences of the selected one cancel to a
`bitdiff` of 0, and the loop stops there whatever follows.  And a candidate whose total
is -1 collides with the "nothing chosen yet" sentinel: it is replaced by a later candidate
with a larger total. -/
theorem chooseConfig_below_request_misbehaves :
    (∃ (get : Handle → EGLint → Option EGLint) (configs : List Handle),
      (∃ c ∈ configs, ∃ a ∈ channels, ∃ v, get c a = some v ∧ v < requested "ARGB24" a) ∧
      (∃ e ∈ configs, ExactMatch get "ARGB24" e) ∧
      ¬ ExactMatch get "ARGB24" (chooseConfig get "ARGB24" configs) ∧
      bitdiffOf get (configAttribs "ARGB24") (chooseConfig get "ARGB24" configs) = 0 ∧
      (∀ rest, chooseConfig get "ARGB24" (chooseConfig get "ARGB24" configs :: rest)
        = chooseConfig get "ARGB24" configs)) ∧
    (∃ (get : Handle → EGLint → Option EGLint) (c₁ c₂ : Handle),
      bitdiffOf get (configAttribs "ARGB24") c₁ = -1 ∧
      bitdiffOf get (configAttribs "ARGB24") c₁ < bitdiffOf get (configAttribs "ARGB24") c₂ ∧
      chooseConfig get "ARGB24" [c₁, c₂] = c₂) := by
  refine ⟨⟨sampleConfigs, [1, 2],
    ⟨1, by decide, EGL_GREEN_SIZE, by decide, 7, by decide, by decide⟩,
    ⟨2, by decide, by decide⟩, by decide, by decide, ?_⟩,
    ⟨sampleConfigs, 3, 4, by decide, by decide, by decide⟩⟩
  intro rest
  have h : chooseConfig sampleConfigs "ARGB24" [1, 2] = 1 := by decide
  rw [h]
  have hb : bitdiffOf sampleConfigs (configAttribs "ARGB24") 1 = 0 := by decide
  simp [chooseConfig, chooseLoop, hb]

/-! ## The coordinate flip of `output` -/

/-- Function `toU32` as an integer. -/
theorem toU32_cast (x : Int) : ((toU32 x : Nat) : Int) = x % 4294967296 := by
  unfold toU32; omega

/-- Function `addU32` as an integer. -/
theorem addU32_cast (a b : Nat) : ((addU32 a b : Nat) : Int) = ((a : Int) + b) % 4294967296 := by
  unfold addU32; omega

/-- Function `subU32` as an integer. -/
theorem subU32_cast (a b : Nat) : ((subU32 a b : Nat) : Int) = ((a : Int) - b) % 4294967296 := by
  unfold subU32; omega

/-- The arithmetic of the coordinate flip: the frame height `h` cancels. -/
theorem flip_cancel (p : Int) (y mh h : Nat) :
    ((subU32 (subU32 (toU32 p) (addU32 y h)) (subU32 mh h) : Nat) : Int)
      = (p - y - mh) % 4294967296 := by
  rw [subU32_cast, subU32_cast, subU32_cast, toU32_cast, addU32_cast]
  have e : p - (y : Int) - mh = (p - ((y : Int) + h)) - ((mh : Int) - h) := by ring
  rw [e]
  have h1 : (p % 4294967296 - ((y : Int) + h) % 4294967296) % 4294967296
      ≡ p - ((y : Int) + h) [ZMOD 4294967296] :=
    (Int.mod_modEq _ _).trans ((Int.mod_modEq _ _).sub (Int.mod_modEq _ _))
  exact h1.sub (Int.mod_modEq _ _)

/-- The value `output` stores in `OpenGL::outputY`. -/
theorem output_outputY_def (s : State) (X : XServer) (width height : Nat) :
    (output s X width height).1.outputY =
      if s.fullScreen then
        subU32 (subU32 (toU32 (XGetWindowAttributes X s._xParent).height)
            (addU32 s._monitorY (if height ≠ 0 then height else s._monitorHeight)))
          (subU32 s._monitorHeight (if height ≠ 0 then height else s._monitorHeight))
      else 0 := rfl

/-- In full-screen mode the Y offset handed to the renderer is the parent height minus
monitor Y minus monitor height, reduced modulo 2^32: the frame height cancels. -/
theorem output_outputY_eq (s : State) (X : XServer) (width height : Nat)
    (hfs : s.fullScreen = true) :
    ((output s X width height).1.outputY : Int)
      = ((XGetWindowAttributes X s._xParent).height - s._monitorY - s._monitorHeight)
          % 4294967296 := by
  rw [output_outputY_def, if_pos hfs, flip_cancel]

/-- Claim C5 as stated fails: with monitor Y = 0, parent height = monitor height = 1080 and
frame height 720 the renderer receives `outputY = 0`, not 1080 - 720 = 360. -/
theorem output_outputY_counterexample :
    sampleReady.fullScreen = true ∧ sampleReady._monitorY = 0 ∧
      sampleReady._monitorHeight = 1080 ∧
      (XGetWindowAttributes sampleX sampleReady._xParent).height = 1080 ∧
      (output sampleReady sampleX 1920 720).1.outputY = 0 ∧
      (output sampleReady sampleX 1920 720).1.outputY ≠ 1080 - 720 := by
  decide

/-- Claim C5, amended: in full-screen mode with monitor Y = 0 and the parent (root) window
height equal to the monitor height `H`, for every frame height `h` with `0 < h <= H` the
Y offset passed to the renderer (`OpenGL::outputY`) is 0: the frame height cancels out of
`parent.height - (_monitorY + _height) - (_monitorHeight - _height)`. -/
theorem output_outputY_fullscreen (s : State) (X : XServer) (width h H : Nat)
    (hfs : s.fullScreen = true) (hY : s._monitorY = 0) (hH : s._monitorHeight = H)
    (hP : (XGetWindowAttributes X s._xParent).height = H) (_h0 : 0 < h) (_hle : h ≤ H) :
    (output s X width h).1.outputY = 0 := by
  have := output_outputY_eq s X width h hfs
  rw [hP, hY, hH] at this
  omega

/-- Instance of the amended C5: monitor height 1080 and frame height 720 give 0. -/
theorem output_outputY_fullscreen_witness :
    (output sampleReady sampleX 1920 720).1.outputY = 0 :=
  output_outputY_fullscreen sampleReady sampleX 1920 720 1080 (by decide) (by decide)
    (by decide) (by decide) (by decide) (by decide)

/-! ## Presentation swaps -/

/-- Whatever the geometry, `output` issues one `eglSwapBuffers` if `_doubleBuffer` is set
and none otherwise. -/
theorem output_swapCount (s : State) (X : XServer) (width height : Nat) :
    swapCount (output s X width height).2.2 = if s._doubleBuffer then 1 else 0 := by
  simp only [output, swapCount]
  cases s._doubleBuffer <;> cases s.flush <;> split <;> simp [Call.isSwap]

/-- Function `output` keeps the private members of the driver. -/
theorem output_private (s : State) (X : XServer) (width height : Nat) :
    (output s X width height).1._xWindow = s._xWindow ∧
      (output s X width height).1._xParent = s._xParent ∧
      (output s X width height).1._eglDisplay = s._eglDisplay ∧
      (output s X width height).1._eglVersionMajor = s._eglVersionMajor ∧
      (output s X width height).1._eglVersionMinor = s._eglVersionMinor ∧
      (output s X width height).1._eglContext = s._eglContext ∧
      (output s X width height).1._eglSurface = s._eglSurface ∧
      (output s X width height).1._xColormap = s._xColormap ∧
      (output s X width height).1._ready = s._ready ∧
      (output s X width height).1._doubleBuffer = s._doubleBuffer :=
  ⟨rfl, rfl, rfl, rfl, rfl, rfl, rfl, rfl, rfl, rfl⟩

/-! ## Window geometry -/

/-- The `int` to `unsigned` to `int` round trip of a window size is the identity on what
`XGetWindowAttributes` reports. -/
theorem wrapI32_toU32_wrapI32 (n : Nat) : wrapI32 (toU32 (wrapI32 n)) = wrapI32 n := by
  simp only [wrapI32, toU32]
  omega

/-- The X server after `output`. -/
theorem output_xserver (s : State) (X : XServer) (width height : Nat) :
    (output s X width height).2.1 =
      if ((XGetWindowAttributes X s._xWindow).width != (XGetWindowAttributes X s._xParent).width
          || (XGetWindowAttributes X s._xWindow).height
              != (XGetWindowAttributes X s._xParent).height) = true
      then XResizeWindow X s._xWindow (toU32 (XGetWindowAttributes X s._xParent).width)
        (toU32 (XGetWindowAttributes X s._xParent).height)
      else X := by
  simp only [output]

/-- After `output`, the X server reports for the child window the size it reports for the
parent, and it holds for the parent what it held before. -/
theorem output_geometry (s : State) (X : XServer) (width height : Nat) :
    XGetWindowAttributes (output s X width height).2.1 s._xWindow
        = XGetWindowAttributes (output s X width height).2.1 s._xParent ∧
      (output s X width height).2.1.width s._xParent = X.width s._xParent ∧
      (output s X width height).2.1.height s._xParent = X.height s._xParent := by
  rw [output_xserver]
  split
  next hr =>
    have hne : s._xParent ≠ s._xWindow := by
      intro h
      rw [h] at hr
      simp at hr
    simp only [XResizeWindow, XGetWindowAttributes, if_neg hne, if_true,
      wrapI32_toU32_wrapI32, and_self]
  next hr =>
    simp only [Bool.or_eq_true, bne_iff_ne, ne_eq, not_or, not_not] at hr
    refine ⟨?_, rfl, rfl⟩
    simp only [XGetWindowAttributes] at hr ⊢
    rw [hr.1, hr.2]

/-! ## The scoring loop under its precondition -/

/-- Values in the range of `int32_t` are not changed by `wrapI32`. -/
theorem wrapI32_of_range (x : Int) (h0 : -2147483648 ≤ x) (h1 : x < 2147483648) :
    wrapI32 x = x := by
  unfold wrapI32
  omega

/-- The surplus written out over the four channels. -/
theorem surplus_eq (get : Handle → EGLint → Option EGLint) (format : String) (c : Handle) :
    surplus get format c
      = (queriedValue (get c EGL_RED_SIZE) - requested format EGL_RED_SIZE)
        + ((queriedValue (get c EGL_GREEN_SIZE) - requested format EGL_GREEN_SIZE)
        + ((queriedValue (get c EGL_BLUE_SIZE) - requested format EGL_BLUE_SIZE)
        + (queriedValue (get c EGL_ALPHA_SIZE) - requested format EGL_ALPHA_SIZE))) := by
  simp [surplus, channels]

/-- Under the precondition every channel contributes a non-negative difference. -/
theorem channel_nonneg (get : Handle → EGLint → Option EGLint) (format : String) (c : Handle)
    (h : ReportsAtLeast get format c) (a : EGLint) (ha : a ∈ channels) :
    0 ≤ queriedValue (get c a) - requested format a := by
  obtain ⟨v, hv, hle⟩ := h a ha
  have e : queriedValue (get c a) = v := by simp [hv, queriedValue]
  rw [e]
  omega

/-- Under the precondition the surplus is non-negative. -/
theorem surplus_nonneg (get : Handle → EGLint → Option EGLint) (format : String) (c : Handle)
    (h : ReportsAtLeast get format c) : 0 ≤ surplus get format c := by
  have hr := channel_nonneg get format c h EGL_RED_SIZE (by decide)
  have hg := channel_nonneg get format c h EGL_GREEN_SIZE (by decide)
  have hb := channel_nonneg get format c h EGL_BLUE_SIZE (by decide)
  have ha := channel_nonneg get format c h EGL_ALPHA_SIZE (by decide)
  rw [surplus_eq]
  omega

/-- Four non-negative differences whose sum fits `int32_t` are summed without wrap. -/
theorem wrapI32_sum4 (x1 x2 x3 x4 : Int) (h1 : 0 ≤ x1) (h2 : 0 ≤ x2) (h3 : 0 ≤ x3)
    (h4 : 0 ≤ x4) (h : x1 + (x2 + (x3 + x4)) < 2147483648) :
    wrapI32 (wrapI32 (wrapI32 (wrapI32 (0 + wrapI32 x1) + wrapI32 x2) + wrapI32 x3)
      + wrapI32 x4) = x1 + (x2 + (x3 + x4)) := by
  rw [wrapI32_of_range x1 (by omega) (by omega), wrapI32_of_range x2 (by omega) (by omega),
    wrapI32_of_range x3 (by omega) (by omega), wrapI32_of_range x4 (by omega) (by omega)]
  rw [wrapI32_of_range (0 + x1) (by omega) (by omega)]
  rw [wrapI32_of_range (0 + x1 + x2) (by omega) (by omega)]
  rw [wrapI32_of_range (0 + x1 + x2 + x3) (by omega) (by omega)]
  rw [wrapI32_of_range (0 + x1 + x2 + x3 + x4) (by omega) (by omega)]
  omega

/-- The inner loop on `configAttribs`, unrolled. -/
theorem bitdiffOf_configAttribs (get : Handle → EGLint → Option EGLint) (format : String)
    (c : Handle) :
    bitdiffOf get (configAttribs format) c
      = wrapI32 (wrapI32 (wrapI32 (wrapI32 (0 + wrapI32
            (queriedValue (get c EGL_RED_SIZE) - requested format EGL_RED_SIZE))
          + wrapI32 (queriedValue (get c EGL_GREEN_SIZE) - requested format EGL_GREEN_SIZE))
          + wrapI32 (queriedValue (get c EGL_BLUE_SIZE) - requested format EGL_BLUE_SIZE))
          + wrapI32 (queriedValue (get c EGL_ALPHA_SIZE) - requested format EGL_ALPHA_SIZE)) := by
  simp [bitdiffOf, configAttribs, bitdiffLoop, isColorSize, requested, EGL_SURFACE_TYPE,
    EGL_NONE, EGL_RENDERABLE_TYPE, EGL_RED_SIZE, EGL_GREEN_SIZE, EGL_BLUE_SIZE, EGL_ALPHA_SIZE]

/-- Under the precondition, and when the `int32_t` sum does not overflow, the `bitdiff`
computed by the inner loop is the surplus. -/
theorem bitdiffOf_eq_surplus (get : Handle → EGLint → Option EGLint) (format : String)
    (c : Handle) (h : ReportsAtLeast get format c) (hr : surplus get format c < 2147483648) :
    bitdiffOf get (configAttribs format) c = surplus get format c := by
  have h1 := channel_nonneg get format c h EGL_RED_SIZE (by decide)
  have h2 := channel_nonneg get format c h EGL_GREEN_SIZE (by decide)
  have h3 := channel_nonneg get format c h EGL_BLUE_SIZE (by decide)
  have h4 := channel_nonneg get format c h EGL_ALPHA_SIZE (by decide)
  rw [surplus_eq] at hr
  rw [bitdiffOf_configAttribs, surplus_eq]
  exact wrapI32_sum4 _ _ _ _ h1 h2 h3 h4 hr

/-- The outer loop on candidates whose `bitdiff` is non-negative, started in a state that
is either the sentinel or a positive `bitdiff` of the configuration held: the final
`chosenBitdiff` is a lower bound of every `bitdiff` seen, does not exceed the initial one,
and belongs to the configuration held at the end. -/
theorem chooseLoop_spec (get : Handle → EGLint → Option EGLint) (attribs : List EGLint)
    (cs : List Handle) (st : Handle × Int)
    (hnn : ∀ c ∈ cs, 0 ≤ bitdiffOf get attribs c)
    (hst : st.2 = -1 ∨ (0 < st.2 ∧ bitdiffOf get attribs st.1 = st.2)) :
    (∀ c ∈ cs, (chooseLoop get attribs cs st).2 ≤ bitdiffOf get attribs c) ∧
    (st.2 ≠ -1 → (chooseLoop get attribs cs st).2 ≤ st.2) ∧
    (chooseLoop get attribs cs st = st ∨
      ((chooseLoop get attribs cs st).1 ∈ cs ∧
        bitdiffOf get attribs (chooseLoop get attribs cs st).1
          = (chooseLoop get attribs cs st).2)) ∧
    (cs ≠ [] → 0 ≤ (chooseLoop get attribs cs st).2) := by
  induction cs generalizing st with
  | nil => simp [chooseLoop]
  | cons c cs ih =>
    have hc : 0 ≤ bitdiffOf get attribs c := hnn c (List.mem_cons_self _ _)
    have hcs : ∀ d ∈ cs, 0 ≤ bitdiffOf get attribs d :=
      fun d hd => hnn d (List.mem_cons_of_mem _ hd)
    by_cases h0 : bitdiffOf get attribs c = 0
    · have hcond : bitdiffOf get attribs c < st.2 ∨ st.2 = -1 := by
        rcases hst with h | h
        · exact Or.inr h
        · exact Or.inl (by omega)
      have hr : chooseLoop get attribs (c :: cs) st = (c, bitdiffOf get attribs c) := by
        simp only [chooseLoop, h0, if_true]
        rw [h0] at hcond
        simp only [if_pos hcond]
      rw [hr]
      refine ⟨?_, ?_, Or.inr ⟨List.mem_cons_self _ _, rfl⟩, fun _ => hc⟩
      · intro d hd
        have := hnn d hd
        simp only [h0]
        exact this
      · intro hne
        rcases hst with h | h
        · exact absurd h hne
        · simp only [h0]; omega
    · have hpos : 0 < bitdiffOf get attribs c := by omega
      have hr : chooseLoop get attribs (c :: cs) st
          = chooseLoop get attribs cs
              (if bitdiffOf get attribs c < st.2 ∨ st.2 = -1
                then (c, bitdiffOf get attribs c) else st) := by
        simp only [chooseLoop, if_neg h0]
      rw [hr]
      by_cases hcond : bitdiffOf get attribs c < st.2 ∨ st.2 = -1
      · simp only [if_pos hcond]
        obtain ⟨ia, ib, ic, _⟩ := ih (c, bitdiffOf get attribs c) hcs (Or.inr ⟨hpos, rfl⟩)
        have hb := ib (by simp only; omega)
        simp only at hb
        refine ⟨?_, ?_, ?_, ?_⟩
        · intro d hd
          rcases List.mem_cons.mp hd with h | h
          · rw [h]; exact hb
          · exact ia d h
        · intro hne
          rcases hcond with h | h
          · omega
          · exact absurd h hne
        · rcases ic with h | ⟨h, h'⟩
          · right
            rw [h]
            exact ⟨List.mem_cons_self _ _, rfl⟩
          · exact Or.inr ⟨List.mem_cons_of_mem _ h, h'⟩
        · intro _
          rcases ic with h | ⟨h, h'⟩
          · rw [h]; exact hc
          · rw [← h']; exact hcs _ h
      · simp only [if_neg hcond]
        have hne1 : st.2 ≠ -1 := fun h => hcond (Or.inr h)
        have hle : st.2 ≤ bitdiffOf get attribs c := by
          have : ¬ bitdiffOf get attribs c < st.2 := fun h => hcond (Or.inl h)
          omega
        have hst' : 0 < st.2 ∧ bitdiffOf get attribs st.1 = st.2 := by
          rcases hst with h | h
          · exact absurd h hne1
          · exact h
        obtain ⟨ia, ib, ic, _⟩ := ih st hcs hst
        have hb := ib hne1
        refine ⟨?_, fun _ => hb, ?_, ?_⟩
        · intro d hd
          rcases List.mem_cons.mp hd with h | h
          · rw [h]; omega
          · exact ia d h
        · rcases ic with h | ⟨h, h'⟩
          · exact Or.inl h
          · exact Or.inr ⟨List.mem_cons_of_mem _ h, h'⟩
        · intro _
          rcases ic with h | ⟨h, h'⟩
          · rw [h]; omega
          · rw [← h']; exact hcs _ h

/-- Claim C1 as stated fails: the candidates 9/8/8/8 (surplus 1) and
2147483647/2147483647/8/8 (surplus 4294967278) both report at least the requested 8/8/8/8,
but the `int32_t` sum of the second wraps to -18, so the loop selects the second, which
does not have the minimum surplus. -/
theorem chooseConfig_min_surplus_counterexample :
    ([4, 6] : List Handle) ≠ [] ∧
      (∀ c ∈ [4, 6], ReportsAtLeast sampleHugeConfigs "ARGB24" c) ∧
      surplus sampleHugeConfigs "ARGB24" 4 = 1 ∧
      surplus sampleHugeConfigs "ARGB24" 6 = 4294967278 ∧
      bitdiffOf sampleHugeConfigs (configAttribs "ARGB24") 6 = -18 ∧
      chooseConfig sampleHugeConfigs "ARGB24" [4, 6] = 6 ∧
      ¬ (∀ c ∈ [4, 6],
        surplus sampleHugeConfigs "ARGB24" (chooseConfig sampleHugeConfigs "ARGB24" [4, 6])
          ≤ surplus sampleHugeConfigs "ARGB24" c) := by
  decide

/-- Claim C1, amended: for every non-empty list of candidate configurations in which every
reported red/green/blue/alpha size is at least the requested size and whose total surplus
is below 2^31 (so that the `int32_t` sum `bitdiff` does not overflow), the configuration selected by the scoring loop of
`initialize` is one of the candidates and has the minimum total surplus among all
candidates; in particular, whenever some candidate has surplus 0 the selected one has
surplus 0. -/
theorem chooseConfig_min_surplus (get : Handle → EGLint → Option EGLint) (format : String)
    (configs : List Handle) (hne : configs ≠ [])
    (hge : ∀ c ∈ configs, ReportsAtLeast get format c)
    (hrange : ∀ c ∈ configs, surplus get format c < 2147483648) :
    chooseConfig get format configs ∈ configs ∧
      (∀ c ∈ configs,
        surplus get format (chooseConfig get format configs) ≤ surplus get format c) ∧
      ((∃ c ∈ configs, surplus get format c = 0) →
        surplus get format (chooseConfig get format configs) = 0) := by
  have hbs : ∀ c ∈ configs, bitdiffOf get (configAttribs format) c = surplus get format c :=
    fun c hc => bitdiffOf_eq_surplus get format c (hge c hc) (hrange c hc)
  have hnn : ∀ c ∈ configs, 0 ≤ bitdiffOf get (configAttribs format) c := by
    intro c hc
    rw [hbs c hc]
    exact surplus_nonneg get format c (hge c hc)
  obtain ⟨ha, _, hc, he⟩ :=
    chooseLoop_spec get (configAttribs format) configs (0, -1) hnn (Or.inl rfl)
  have hpos := he hne
  have hmem : (chooseLoop get (configAttribs format) configs (0, -1)).1 ∈ configs ∧
      bitdiffOf get (configAttribs format)
          (chooseLoop get (configAttribs format) configs (0, -1)).1
        = (chooseLoop get (configAttribs format) configs (0, -1)).2 := by
    rcases hc with h | h
    · rw [h] at hpos
      simp at hpos
    · exact h
  have hmin : ∀ c ∈ configs,
      surplus get format (chooseConfig get format configs) ≤ surplus get format c := by
    intro c hcm
    have := ha c hcm
    rw [← hmem.2, hbs c hcm] at this
    rw [chooseConfig, ← hbs _ hmem.1]
    exact this
  refine ⟨hmem.1, hmin, ?_⟩
  rintro ⟨c, hcm, h0⟩
  have h1 := hmin c hcm
  have h2 := surplus_nonneg get format _ (hge _ hmem.1)
  simp only [chooseConfig] at h1 ⊢
  omega

/-- Instance of the amended C1: among 9/8/8/8 (surplus 1) and 8/8/8/8 (surplus 0), in this order,
the exact match is selected. -/
theorem chooseConfig_min_surplus_witness :
    chooseConfig sampleConfigs "ARGB24" [4, 2] = 2 ∧
      surplus sampleConfigs "ARGB24" 4 = 1 ∧
      surplus sampleConfigs "ARGB24" (chooseConfig sampleConfigs "ARGB24" [4, 2]) = 0 ∧
      (∀ c ∈ [4, 2], surplus sampleConfigs "ARGB24"
        (chooseConfig sampleConfigs "ARGB24" [4, 2]) ≤ surplus sampleConfigs "ARGB24" c) :=
  ⟨by decide, by decide,
    (chooseConfig_min_surplus sampleConfigs "ARGB24" [4, 2] (by decide) (by decide)
      (by decide)).2.2 ⟨2, by decide, by decide⟩,
    (chooseConfig_min_surplus sampleConfigs "ARGB24" [4, 2] (by decide) (by decide)
      (by decide)).2.1⟩

/-! ## `terminate` -/

/-- Function `terminate` clears `_ready`. -/
theorem terminate_ready (s : State) : (terminate s)._ready = false := by
  unfold terminate
  simp only
  split
  · split <;> split <;> split <;> split <;> rfl
  · rfl

/-- Function `terminate` writes no member other than `_ready` and the four handles. -/
theorem terminate_keeps (s : State) :
    (terminate s)._eglDisplay = s._eglDisplay ∧
      (terminate s)._eglVersionMajor = s._eglVersionMajor ∧
      (terminate s)._eglVersionMinor = s._eglVersionMinor ∧
      (terminate s).toVideoDriver = s.toVideoDriver ∧
      (terminate s).toOpenGL = s.toOpenGL ∧
      (terminate s)._doubleBuffer = s._doubleBuffer := by
  unfold terminate
  simp only
  split
  · split <;> split <;> split <;> split <;> exact ⟨rfl, rfl, rfl, rfl, rfl, rfl⟩
  · exact ⟨rfl, rfl, rfl, rfl, rfl, rfl⟩

/-- With an EGL display, `terminate` releases the four handles. -/
theorem terminate_released (s : State) (h : s._eglDisplay ≠ EGL_NO_DISPLAY) :
    HandlesReleased (terminate s) := by
  have h' : s._eglDisplay ≠ 0 := h
  unfold terminate HandlesReleased EGL_NO_CONTEXT EGL_NO_SURFACE
  simp only [h', ne_eq, not_false_eq_true, if_true]
  by_cases h1 : s._eglContext = 0 <;> by_cases h2 : s._eglSurface = 0 <;>
    by_cases h3 : s._xWindow = 0 <;> by_cases h4 : s._xColormap = 0 <;>
    simp [h1, h2, h3, h4, EGL_NO_CONTEXT, EGL_NO_SURFACE]

/-- Without an EGL display, `terminate` leaves the four handles as they are. -/
theorem terminate_no_display (s : State) (h : s._eglDisplay = EGL_NO_DISPLAY) :
    terminate s = { s with _ready := false } := by
  have h' : s._eglDisplay = 0 := h
  unfold terminate
  simp [h']

/-- Before the embed-context test and the version gate are passed, `initialize` does
nothing but `terminate`. -/
theorem initializeDriver_gate (s : State) (env : InitEnv)
    (h : (s.fullScreen = false ∧ s.context = 0) ∨
      (s._eglVersionMajor < 1 ∨ (s._eglVersionMajor = 1 ∧ s._eglVersionMinor < 5))) :
    initializeDriver s env = (false, terminate s) := by
  obtain ⟨_, hM, hm, hb, _, _⟩ := terminate_keeps s
  have hfs : (terminate s).fullScreen = s.fullScreen := by
    show (terminate s).toVideoDriver.fullScreen = _; rw [hb]
  have hctx : (terminate s).context = s.context := by
    show (terminate s).toVideoDriver.context = _; rw [hb]
  unfold initializeDriver
  simp only [hfs, hctx, hM, hm]
  by_cases h1 : (!s.fullScreen && s.context == 0) = true
  · simp only [h1, if_true]
  · rw [if_neg h1]
    rcases h with h | h
    · exact absurd (by simp [h.1, h.2]) h1
    · rw [if_pos h]

/-- Function `initialize` never writes the EGL display or version. -/
theorem initializeDriver_keeps (s : State) (env : InitEnv) :
    (initializeDriver s env).2._eglDisplay = s._eglDisplay ∧
      (initializeDriver s env).2._eglVersionMajor = s._eglVersionMajor ∧
      (initializeDriver s env).2._eglVersionMinor = s._eglVersionMinor := by
  obtain ⟨hd, hM, hm, _, _, _⟩ := terminate_keeps s
  unfold initializeDriver
  simp only
  split
  · exact ⟨hd, hM, hm⟩
  split
  · exact ⟨hd, hM, hm⟩
  split
  · exact ⟨hd, hM, hm⟩
  split
  · exact ⟨hd, hM, hm⟩
  split
  · exact ⟨(terminate_keeps _).1.trans hd, (terminate_keeps _).2.1.trans hM,
      (terminate_keeps _).2.2.1.trans hm⟩
  split
  · exact ⟨(terminate_keeps _).1.trans hd, (terminate_keeps _).2.1.trans hM,
      (terminate_keeps _).2.2.1.trans hm⟩
  split
  · exact ⟨(terminate_keeps _).1.trans hd, (terminate_keeps _).2.1.trans hM,
      (terminate_keeps _).2.2.1.trans hm⟩
  split
  · exact ⟨(terminate_keeps _).1.trans hd, (terminate_keeps _).2.1.trans hM,
      (terminate_keeps _).2.2.1.trans hm⟩
  split
  · exact ⟨(terminate_keeps _).1.trans hd, (terminate_keeps _).2.1.trans hM,
      (terminate_keeps _).2.2.1.trans hm⟩
  split
  · exact ⟨(terminate_keeps _).1.trans hd, (terminate_keeps _).2.1.trans hM,
      (terminate_keeps _).2.2.1.trans hm⟩
  split
  · exact ⟨(terminate_keeps _).1.trans hd, (terminate_keeps _).2.1.trans hM,
      (terminate_keeps _).2.2.1.trans hm⟩
  exact ⟨hd, hM, hm⟩

/-- The two ways `initialize` ends: either it returns false right after a `terminate`
(of an object with the EGL display it started with), or every platform step succeeded,
the four handles are the ones just created, and the value returned is the result of
`OpenGL::initialize`, which is stored in `_ready` without a `terminate` when it is false. -/
theorem initializeDriver_cases (s : State) (env : InitEnv) :
    (∃ t : State, initializeDriver s env = (false, terminate t) ∧
        t._eglDisplay = s._eglDisplay) ∨
      ((initializeDriver s env).1 = env.openGLInit ∧
        (initializeDriver s env).2._ready = env.openGLInit ∧
        (initializeDriver s env).2._doubleBuffer
          = (queriedValue env.queryContext != EGL_SINGLE_BUFFER) ∧
        (initializeDriver s env).2._xWindow = env.createWindow ∧
        (initializeDriver s env).2._xColormap = env.createColormap ∧
        (initializeDriver s env).2._eglSurface = env.createWindowSurface ∧
        (initializeDriver s env).2._eglContext = env.createContext ∧
        env.createWindowSurface ≠ 0 ∧ env.createContext ≠ 0) := by
  have hd := (terminate_keeps s).1
  unfold initializeDriver
  simp only
  split
  · exact Or.inl ⟨s, rfl, rfl⟩
  split
  · exact Or.inl ⟨s, rfl, rfl⟩
  split
  · exact Or.inl ⟨s, rfl, rfl⟩
  split
  · exact Or.inl ⟨s, rfl, rfl⟩
  split
  · exact Or.inl ⟨_, rfl, hd⟩
  split
  · exact Or.inl ⟨_, rfl, hd⟩
  split
  · exact Or.inl ⟨_, rfl, hd⟩
  split
  · exact Or.inl ⟨_, rfl, hd⟩
  split
  · exact Or.inl ⟨_, rfl, hd⟩
  split
  · exact Or.inl ⟨_, rfl, hd⟩
  split
  · exact Or.inl ⟨_, rfl, hd⟩
  next h1 _ h2 _ _ =>
    exact Or.inr ⟨rfl, rfl, rfl, rfl, rfl, rfl, rfl, h1, h2⟩

/-! ## Reachable objects hold no handle without an EGL display -/

/-- Function `construct` on a conforming platform establishes the invariant. -/
theorem construct_noDisplayIdle (base : VideoDriver) (gl : OpenGL) (env : ConstructEnv)
    (h : env.Conforming) : NoDisplayIdle (construct base gl env) := by
  unfold ConstructEnv.Conforming at h
  have z : (0 : Int) < 1 ∨ ((0 : Int) = 1 ∧ (0 : Int) < 5) := Or.inl (by decide)
  unfold construct
  simp only
  split
  · split
    · next major minor hv =>
      intro hd
      exact ⟨h hd major minor hv, rfl, rfl, rfl, rfl⟩
    · intro hd
      exact ⟨z, rfl, rfl, rfl, rfl⟩
  · split
    · next major minor hv =>
      intro hd
      rw [destruct, (terminate_keeps _).1] at hd
      rw [destruct, terminate_no_display _ hd]
      exact ⟨h hd major minor hv, rfl, rfl, rfl, rfl⟩
    · intro hd
      rw [destruct, (terminate_keeps _).1] at hd
      rw [destruct, terminate_no_display _ hd]
      exact ⟨z, rfl, rfl, rfl, rfl⟩

/-- Function `terminate` preserves the invariant. -/
theorem terminate_noDisplayIdle (s : State) (h : NoDisplayIdle s) :
    NoDisplayIdle (terminate s) := by
  intro hd
  rw [(terminate_keeps s).1] at hd
  rw [terminate_no_display s hd]
  exact h hd

/-- Function `initialize` preserves the invariant. -/
theorem initializeDriver_noDisplayIdle (s : State) (env : InitEnv) (h : NoDisplayIdle s) :
    NoDisplayIdle (initializeDriver s env).2 := by
  intro hd
  rw [(initializeDriver_keeps s env).1] at hd
  obtain ⟨hg, _⟩ := h hd
  rw [initializeDriver_gate s env (Or.inr hg)]
  exact terminate_noDisplayIdle s h ((terminate_keeps s).1.trans hd)

/-- Every reachable object satisfies the invariant. -/
theorem reachable_noDisplayIdle (s : State) (h : Reachable s) : NoDisplayIdle s := by
  induction h with
  | construct base gl env hc => exact construct_noDisplayIdle base gl env hc
  | store s base _ ih => exact ih
  | create s env _ ih => exact initializeDriver_noDisplayIdle _ env ih
  | setFullScreen s v env _ ih => exact initializeDriver_noDisplayIdle s env ih
  | setMonitor s v env _ ih => exact initializeDriver_noDisplayIdle s env ih
  | setContext s v env _ ih => exact initializeDriver_noDisplayIdle s env ih
  | setFormat s v env _ ih =>
    unfold setFormat
    split
    · exact initializeDriver_noDisplayIdle _ env ih
    · split
      · exact initializeDriver_noDisplayIdle _ env ih
      · exact ih
  | setBlocking s v _ ih => exact ih
  | setFlush s v _ ih => exact ih
  | setShader s v r _ ih => exact ih
  | output s X width height _ ih => exact ih
  | terminate s _ ih => exact terminate_noDisplayIdle s ih

/-- Claim C2, amended: for every driver state reachable from construction by any sequence
of create / setFullScreen / setMonitor / setContext / setFormat / setBlocking / setFlush /
setShader calls (also output and terminate, with any settings stored in the base class in
between), under any behaviour of the platform backend in which `eglInitialize` reports no
version 1.5 or higher for `EGL_NO_DISPLAY`, `terminate()` leaves `_xWindow = 0`,
`_eglContext = EGL_NO_CONTEXT`, `_eglSurface = EGL_NO_SURFACE`, `_xColormap = 0` and
`ready() = false`. -/
theorem terminate_releases_reachable (s : State) (h : Reachable s) :
    (terminate s)._xWindow = 0 ∧ (terminate s)._eglContext = EGL_NO_CONTEXT ∧
      (terminate s)._eglSurface = EGL_NO_SURFACE ∧ (terminate s)._xColormap = 0 ∧
      ready (terminate s) = false := by
  have hr : ready (terminate s) = false := terminate_ready s
  by_cases hd : s._eglDisplay = EGL_NO_DISPLAY
  · obtain ⟨_, h1, h2, h3, h4⟩ := terminate_noDisplayIdle s (reachable_noDisplayIdle s h)
      ((terminate_keeps s).1.trans hd)
    exact ⟨h1, h2, h3, h4, hr⟩
  · obtain ⟨h1, h2, h3, h4⟩ := terminate_released s hd
    exact ⟨h1, h2, h3, h4, hr⟩

/-- Instance of the amended C2: the ready sample driver is reachable and holds four
handles, and `terminate()` releases them. -/
theorem terminate_releases_reachable_witness :
    Reachable sampleReady ∧ sampleReady._xWindow = 12 ∧ sampleReady._eglContext = 14 ∧
      ((terminate sampleReady)._xWindow = 0 ∧
        (terminate sampleReady)._eglContext = EGL_NO_CONTEXT ∧
        (terminate sampleReady)._eglSurface = EGL_NO_SURFACE ∧
        (terminate sampleReady)._xColormap = 0 ∧ ready (terminate sampleReady) = false) :=
  ⟨Reachable.create sampleConstructed sampleInitEnv
      (Reachable.construct sampleBase sampleGL sampleConstructEnv (by decide)),
    by decide, by decide,
    terminate_releases_reachable sampleReady
      (Reachable.create sampleConstructed sampleInitEnv
        (Reachable.construct sampleBase sampleGL sampleConstructEnv (by decide)))⟩

/-- Claim C2 as stated fails: on a platform backend without EGL display whose
`eglInitialize` nevertheless returns true and reports EGL 1.5, the driver is constructed
with `_eglDisplay = EGL_NO_DISPLAY`, `create()` passes the version gate and succeeds, and
`terminate()` then skips its clearing code (guard `if(_eglDisplay)`): the window, context,
surface and colormap stay 12, 14, 13 and 11. -/
theorem terminate_any_platform_counterexample :
    (construct sampleBase sampleGL sampleNoDisplayEnv)._eglDisplay = EGL_NO_DISPLAY ∧
      (create (construct sampleBase sampleGL sampleNoDisplayEnv) sampleInitEnv).1 = true ∧
      (terminate (create (construct sampleBase sampleGL sampleNoDisplayEnv)
        sampleInitEnv).2)._xWindow = 12 ∧
      (terminate (create (construct sampleBase sampleGL sampleNoDisplayEnv)
        sampleInitEnv).2)._eglContext = 14 ∧
      (terminate (create (construct sampleBase sampleGL sampleNoDisplayEnv)
        sampleInitEnv).2)._eglSurface = 13 ∧
      (terminate (create (construct sampleBase sampleGL sampleNoDisplayEnv)
        sampleInitEnv).2)._xColormap = 11 ∧
      ¬ HandlesReleased (terminate (create (construct sampleBase sampleGL sampleNoDisplayEnv)
        sampleInitEnv).2) := by
  decide

/-! ## Failure of `initialize` -/

/-- Function `initialize` stores in `_ready` the value it returns. -/
theorem initializeDriver_ready (s : State) (env : InitEnv) :
    (initializeDriver s env).2._ready = (initializeDriver s env).1 := by
  rcases initializeDriver_cases s env with ⟨t, ht, _⟩ | ⟨h1, h2, _⟩
  · rw [ht]
    exact terminate_ready t
  · rw [h1, h2]

/-- Rollback on failure, as far as it goes: with an EGL display, when `initialize` returns
false the driver is not ready, and the four handles are released unless the failing step was the
last one, `OpenGL::initialize`; in that case the handles created by the attempt are
still held. -/
theorem initializeDriver_false_released_or_renderer (s : State) (env : InitEnv)
    (hd : s._eglDisplay ≠ EGL_NO_DISPLAY) (hf : (initializeDriver s env).1 = false) :
    ready (initializeDriver s env).2 = false ∧
      (HandlesReleased (initializeDriver s env).2 ∨
        (env.openGLInit = false ∧
          (initializeDriver s env).2._xWindow = env.createWindow ∧
          (initializeDriver s env).2._xColormap = env.createColormap ∧
          (initializeDriver s env).2._eglSurface = env.createWindowSurface ∧
          (initializeDriver s env).2._eglContext = env.createContext ∧
          env.createWindowSurface ≠ 0 ∧ env.createContext ≠ 0)) := by
  refine ⟨(initializeDriver_ready s env).trans hf, ?_⟩
  rcases initializeDriver_cases s env with ⟨t, ht, htd⟩ | ⟨h1, _, _, h4, h5, h6, h7, h8, h9⟩
  · left
    rw [ht]
    exact terminate_released t (by rw [htd]; exact hd)
  · right
    exact ⟨h1.symm.trans hf, h4, h5, h6, h7, h8, h9⟩

/-- Claim C3 fails on the code: on the constructed sample driver (EGL 1.5, full screen)
with a platform on which every step succeeds and a renderer whose `OpenGL::initialize`
returns false, `create()` (that is `initialize()`) returns false and the driver is not
ready, but the window, colormap, surface and context created in that attempt are still
held: the last `return` of `initialize` has no `terminate()`, unlike every other failing
step. -/
theorem create_renderer_failure_keeps_handles :
    Reachable sampleConstructed ∧ HandlesReleased sampleConstructed ∧
      (create sampleConstructed sampleRendererFailsEnv).1 = false ∧
      ready (create sampleConstructed sampleRendererFailsEnv).2 = false ∧
      (create sampleConstructed sampleRendererFailsEnv).2._xWindow = 12 ∧
      (create sampleConstructed sampleRendererFailsEnv).2._xColormap = 11 ∧
      (create sampleConstructed sampleRendererFailsEnv).2._eglSurface = 13 ∧
      (create sampleConstructed sampleRendererFailsEnv).2._eglContext = 14 ∧
      ¬ HandlesReleased (create sampleConstructed sampleRendererFailsEnv).2 :=
  ⟨Reachable.construct sampleBase sampleGL sampleConstructEnv (by decide), by decide,
    by decide, by decide, by decide, by decide, by decide, by decide, by decide⟩

/-- Function `initialize` writes no member of the renderer base class. -/
theorem initializeDriver_keeps_openGL (s : State) (env : InitEnv) :
    (initializeDriver s env).2.toOpenGL = s.toOpenGL := by
  have hg := (terminate_keeps s).2.2.2.2.1
  unfold initializeDriver
  simp only
  split
  · exact hg
  split
  · exact hg
  split
  · exact hg
  split
  · exact hg
  split
  · exact (terminate_keeps _).2.2.2.2.1.trans hg
  split
  · exact (terminate_keeps _).2.2.2.2.1.trans hg
  split
  · exact (terminate_keeps _).2.2.2.2.1.trans hg
  split
  · exact (terminate_keeps _).2.2.2.2.1.trans hg
  split
  · exact (terminate_keeps _).2.2.2.2.1.trans hg
  split
  · exact (terminate_keeps _).2.2.2.2.1.trans hg
  split
  · exact (terminate_keeps _).2.2.2.2.1.trans hg
  exact hg

/-! ## Setters on a driver that is not ready -/

/-- Claim C6 as stated fails: on the constructed sample driver, whose detected depth is
24, `setFormat("ARGB30")` returns true with the 30-bit renderer input format in effect;
and when the owner has stored "ARGB30" in `VideoDriver::format`, the sizes requested from
EGL are 10/10/10/2 as well. -/
theorem setFormat_depth24_counterexample :
    sampleConstructed._depth = 24 ∧
      (setFormat sampleConstructed "ARGB30" sampleInitEnv).1 = true ∧
      (setFormat sampleConstructed "ARGB30" sampleInitEnv).2.inputFormat = GL_RGB10_A2 ∧
      (setFormat sampleConstructed "ARGB30" sampleInitEnv).2.inputFormat ≠ GL_RGBA8 ∧
      ({ sampleConstructed with format := "ARGB30" } : State)._depth = 24 ∧
      (setFormat { sampleConstructed with format := "ARGB30" } "ARGB30" sampleDeepEnv).1
        = true ∧
      configAttribs
          (setFormat { sampleConstructed with format := "ARGB30" } "ARGB30" sampleDeepEnv).2.format
        = [EGL_SURFACE_TYPE, EGL_WINDOW_BIT, EGL_RENDERABLE_TYPE, EGL_OPENGL_BIT,
            EGL_RED_SIZE, 10, EGL_GREEN_SIZE, 10, EGL_BLUE_SIZE, 10, EGL_ALPHA_SIZE, 2,
            EGL_NONE] := by
  decide

/-- Claim C6, amended: for every driver state whose detected display depth is 24, a call
`setFormat("ARGB30")` is not checked against the depth: it stores the 30-bit renderer
input format `GL_RGB10_A2` and returns the result of `initialize()`, so whenever it
returns true the 30-bit input format is in effect and the driver is ready.  The depth only
restricts the advertised list: `hasFormats()` is then exactly ["ARGB24"].  `setFormat`
rejects only names other than "ARGB24" and "ARGB30". -/
theorem setFormat_depth24 (s : State) (env : InitEnv) (hdepth : s._depth = 24) :
    setFormat s "ARGB30" env = initializeDriver { s with inputFormat := GL_RGB10_A2 } env ∧
      (setFormat s "ARGB30" env).2.inputFormat = GL_RGB10_A2 ∧
      ((setFormat s "ARGB30" env).1 = true → ready (setFormat s "ARGB30" env).2 = true) ∧
      hasFormats s._depth = ["ARGB24"] ∧
      (∀ format, format ≠ "ARGB24" → format ≠ "ARGB30" →
        setFormat s format env = (false, s)) := by
  have h : setFormat s "ARGB30" env
      = initializeDriver { s with inputFormat := GL_RGB10_A2 } env := by
    unfold setFormat
    rw [if_neg (by decide), if_pos rfl]
  refine ⟨h, ?_, ?_, ?_, ?_⟩
  · rw [h]
    show (initializeDriver _ env).2.toOpenGL.inputFormat = _
    rw [initializeDriver_keeps_openGL]
  · intro ht
    rw [h] at ht ⊢
    exact (initializeDriver_ready _ env).trans ht
  · rw [hdepth]
    decide
  · intro format h24 h30
    unfold setFormat
    rw [if_neg h24, if_neg h30]

/-- Instance of the amended C6 on the constructed sample driver. -/
theorem setFormat_depth24_witness :
    sampleConstructed._depth = 24 ∧
      (setFormat sampleConstructed "ARGB30" sampleInitEnv).2.inputFormat = GL_RGB10_A2 ∧
      hasFormats sampleConstructed._depth = ["ARGB24"] :=
  ⟨by decide, (setFormat_depth24 sampleConstructed sampleInitEnv (by decide)).2.1,
    (setFormat_depth24 sampleConstructed sampleInitEnv (by decide)).2.2.2.1⟩

/-! ## Presentation swaps per frame -/

/-- Claim C8: for every ready driver state and every width and height, one call
`output(width, height)` issues exactly one `eglSwapBuffers` call when `_doubleBuffer` is
true and none when it is false; and whenever `initialize()` succeeds, the driver is ready
and `_doubleBuffer` is true exactly when the render buffer left in `attrib` by
`eglQueryContext` at context creation is not `EGL_SINGLE_BUFFER`. -/
theorem output_swaps_once_iff_doubleBuffer :
    (∀ (s : State) (X : XServer) (width height : Nat), ready s = true →
      swapCount (output s X width height).2.2 = if s._doubleBuffer then 1 else 0) ∧
    (∀ (s : State) (env : InitEnv), (initializeDriver s env).1 = true →
      ready (initializeDriver s env).2 = true ∧
      ((initializeDriver s env).2._doubleBuffer = true ↔
        queriedValue env.queryContext ≠ EGL_SINGLE_BUFFER)) := by
  refine ⟨fun s X width height _ => output_swapCount s X width height, ?_⟩
  intro s env ht
  refine ⟨(initializeDriver_ready s env).trans ht, ?_⟩
  rcases initializeDriver_cases s env with ⟨t, h, _⟩ | ⟨_, _, h3, _⟩
  · rw [h] at ht
    cases ht
  · rw [h3]
    simp

/-- Instance of C8: the ready sample driver was negotiated double-buffered (render buffer
`EGL_BACK_BUFFER`), and `output(1920, 1080)` issues one swap. -/
theorem output_swaps_once_iff_doubleBuffer_witness :
    ready sampleReady = true ∧ sampleReady._doubleBuffer = true ∧
      swapCount (output sampleReady sampleX 1920 1080).2.2
        = (if sampleReady._doubleBuffer then 1 else 0) ∧
      (initializeDriver sampleConstructed sampleInitEnv).1 = true ∧
      ((initializeDriver sampleConstructed sampleInitEnv).2._doubleBuffer = true ↔
        queriedValue sampleInitEnv.queryContext ≠ EGL_SINGLE_BUFFER) :=
  ⟨by decide, by decide,
    output_swaps_once_iff_doubleBuffer.1 sampleReady sampleX 1920 1080 (by decide),
    by decide,
    (output_swaps_once_iff_doubleBuffer.2 sampleConstructed sampleInitEnv (by decide)).2⟩

/-! ## The child window covers its parent -/

/-- Claim C9: for every ready driver state in windowed mode and every width and height,
after one call `output(width, height)` against an X server on which `XResizeWindow` sets
the size of the window, the size reported for the child window `_xWindow` (width and
height) equals the size reported for the embed parent `_xParent`, and the size of the
parent is unchanged by the call. -/
theorem output_child_covers_parent (s : State) (X : XServer) (width height : Nat)
    (_hready : ready s = true) (_hwindowed : s.fullScreen = false) :
    XGetWindowAttributes (output s X width height).2.1 (output s X width height).1._xWindow
        = XGetWindowAttributes (output s X width height).2.1
            (output s X width height).1._xParent ∧
      (output s X width height).2.1.width (output s X width height).1._xParent
        = X.width s._xParent ∧
      (output s X width height).2.1.height (output s X width height).1._xParent
        = X.height s._xParent := by
  rw [(output_private s X width height).1, (output_private s X width height).2.1]
  exact output_geometry s X width height

/-- Instance of C9: the child 12 is 640 by 480 under a parent 200 of 800 by 600; after
`output` the child is reported as 800 by 600. -/
theorem output_child_covers_parent_witness :
    ready sampleReadyWindowed = true ∧ sampleReadyWindowed.fullScreen = false ∧
      XGetWindowAttributes sampleResizedX sampleReadyWindowed._xWindow
        = { width := 640, height := 480 } ∧
      XGetWindowAttributes (output sampleReadyWindowed sampleResizedX 256 240).2.1
          (output sampleReadyWindowed sampleResizedX 256 240).1._xWindow
        = XGetWindowAttributes (output sampleReadyWindowed sampleResizedX 256 240).2.1
            (output sampleReadyWindowed sampleResizedX 256 240).1._xParent ∧
      XGetWindowAttributes (output sampleReadyWindowed sampleResizedX 256 240).2.1
          (output sampleReadyWindowed sampleResizedX 256 240).1._xParent
        = { width := 800, height := 600 } :=
  ⟨by decide, by decide, by decide,
    (output_child_covers_parent sampleReadyWindowed sampleResizedX 256 240 (by decide)
      (by decide)).1,
    by decide⟩

end VideoEGL
